import Mathlib

/-!
Shallow embedding of the viewport and selection logic of the pik repository
(src/src/popups/mod.rs and src/src/tui/rendering.rs).

Conventions for machine integers:
* `usize` values are modeled as `Nat`.  Plain `usize` addition is modeled by
  `Nat` addition (a Rust debug build aborts on the unreachable overflow at
  2^64, and every value reachable here is far below that bound);
  `saturating_sub` on `usize` is exactly `Nat` subtraction, and
  `saturating_add 1` agrees with `Nat.succ` below the clamp that follows it.
* `usize::wrapping_sub` is modeled explicitly modulo 2^64
  (`18446744073709551616`), because its wrap-around at small inputs is
  observable behaviour of `Tui::select_previous_row`.
* `u16` arithmetic in `Tui::update_process_details_number_of_lines` is modeled
  explicitly modulo 2^16 (`65536`), matching release-mode wrap-around of the
  `as u16` cast and of `u16` addition.
* The two unchecked `u16` subtractions in `Tui::process_details_down` are
  modeled as checked subtraction returning `Option`, `none` standing for the
  arithmetic-underflow panic of a debug build (a release build would wrap).
-/

/-- `ScrollType` from popups/mod.rs.  The Rust variant `End` is rendered as
`toEnd` because `end` is a Lean keyword. -/
inductive ScrollType where
  | up
  | down
  | home
  | toEnd
  | pageUp
  | pageDown
deriving Repr, DecidableEq

/-- State of `VerticalScroll` (popups/mod.rs): the two `Cell<usize>` fields. -/
structure VerticalScroll where
  top : Nat
  max_top : Nat
deriving Repr, DecidableEq

/-- `VerticalScroll::new`. -/
def VerticalScroll.new : VerticalScroll :=
  { top := 0, max_top := 0 }

/-- `VerticalScroll::reset`: only `top` is set to 0. -/
def VerticalScroll.reset (s : VerticalScroll) : VerticalScroll :=
  { s with top := 0 }

/-- `VerticalScroll::move_top`.  Returns the new state together with the
`bool` the Rust method returns.  `old.saturating_add(1)` is `old + 1` (the
subsequent clamp keeps the value at or below `max_top` anyway), the Rust
`clamp(0, max)` is `min _ max` on `Nat`. -/
def VerticalScroll.move_top (s : VerticalScroll) (move_type : ScrollType) :
    VerticalScroll × Bool :=
  let old := s.top
  let maxv := s.max_top
  let new_scroll_top :=
    match move_type with
    | ScrollType.down => old + 1
    | ScrollType.up => old - 1
    | ScrollType.home => 0
    | ScrollType.toEnd => maxv
    | _ => old
  let new_scroll_top := min new_scroll_top maxv
  if new_scroll_top = old then (s, false)
  else ({ s with top := new_scroll_top }, true)

/-- `VerticalScroll::move_area_to_visible`.  The Rust parameter `end` is
rendered as `endPos` because `end` is a Lean keyword.  `saturating_sub` is
`Nat` subtraction; `saturating_add` cannot overflow below the following
`min` with `max_top`. -/
def VerticalScroll.move_area_to_visible (s : VerticalScroll)
    (height start endPos : Nat) : VerticalScroll :=
  let top := s.top
  let bottom := top + height
  let max_top := s.max_top
  -- the top of some content is hidden
  if start < top then { s with top := start }
  -- the bottom of some content is hidden and there is visible space available
  else if endPos > bottom ∧ start > top then
    let avail_space := start - top
    let diff := min avail_space (endPos - bottom)
    let top := top + diff
    { s with top := min max_top top }
  else s

/-- `calc_scroll_top` (popups/mod.rs, bottom of file): the auto-follow
computation.  `selection.saturating_sub(height_in_lines)` is `Nat`
subtraction. -/
def calc_scroll_top (current_top height_in_lines selection selection_max : Nat) :
    Nat :=
  if height_in_lines = 0 then 0
  else if selection_max ≤ height_in_lines then 0
  else if current_top + height_in_lines ≤ selection then
    selection - height_in_lines + 1
  else if current_top > selection then selection
  else current_top

/-- `VerticalScroll::update`: recomputes `top` through `calc_scroll_top`, then
sets `max_top` to `selection_max.saturating_sub(visual_height)` (0 when
`visual_height` is 0).  Note that the retained `top` is not re-clamped
against the freshly computed `max_top`. -/
def VerticalScroll.update (s : VerticalScroll)
    (selection selection_max visual_height : Nat) : VerticalScroll :=
  let new_top := calc_scroll_top s.top visual_height selection selection_max
  let new_max := if visual_height = 0 then 0 else selection_max - visual_height
  { top := new_top, max_top := new_max }

/-- `VerticalScroll::update_no_selection`. -/
def VerticalScroll.update_no_selection (s : VerticalScroll)
    (line_count visual_height : Nat) : VerticalScroll :=
  s.update s.top line_count visual_height

/-- Applying a sequence of `move_top` commands, as the popup event loop does
one key at a time. -/
def VerticalScroll.apply_moves (s : VerticalScroll) (ms : List ScrollType) :
    VerticalScroll :=
  ms.foldl (fun q m => (q.move_top m).1) s

/-- A single `move_top` keeps `top` at or below `max_top` whenever it held
before the call. -/
theorem VerticalScroll.move_top_le (s : VerticalScroll) (m : ScrollType)
    (h : s.top ≤ s.max_top) :
    ((s.move_top m).1).top ≤ ((s.move_top m).1).max_top := by
  unfold VerticalScroll.move_top
  dsimp only
  split
  · exact h
  · exact Nat.min_le_right _ _

/-- C1: for every positive visible height strictly below `selection_max`,
`calc_scroll_top` scrolls down to `selection - visible_height + 1` when the
selection lies at or below the window's end, scrolls up to `selection` when
the selection lies above the window, and otherwise keeps `current_top`; at
(0, 10, 45, 100) it returns 36 and at (36, 10, 5, 100) it returns 5. -/
theorem c1_calc_scroll_top_follow
    (current_top visible_height selection selection_max : Nat)
    (hpos : 0 < visible_height) (hmax : visible_height < selection_max) :
    (current_top + visible_height ≤ selection →
      calc_scroll_top current_top visible_height selection selection_max =
        selection - visible_height + 1) ∧
    (selection < current_top →
      calc_scroll_top current_top visible_height selection selection_max =
        selection) ∧
    (current_top ≤ selection → selection < current_top + visible_height →
      calc_scroll_top current_top visible_height selection selection_max =
        current_top) ∧
    calc_scroll_top 0 10 45 100 = 36 ∧ calc_scroll_top 36 10 5 100 = 5 := by
  refine ⟨?_, ?_, ?_, by decide, by decide⟩ <;>
    · intros
      unfold calc_scroll_top
      split_ifs <;> omega

/-- C1 witness: the theorem applied at the two concrete scenarios of the
claim. -/
theorem c1_witness :
    calc_scroll_top 0 10 45 100 = 45 - 10 + 1 ∧
    calc_scroll_top 36 10 5 100 = 5 :=
  ⟨(c1_calc_scroll_top_follow 0 10 45 100 (by decide) (by decide)).1 (by decide),
   (c1_calc_scroll_top_follow 36 10 5 100 (by decide) (by decide)).2.1 (by decide)⟩

/-- C3 counterexample: at current_top 1, visible_height 10, selection 5,
selection_max 3 the selection is inside the window (1 ≤ 5 < 1 + 10), yet
`calc_scroll_top` returns 0, not the unchanged current_top 1: the
`selection_max ≤ visible_height` guard fires first. -/
theorem c3_counterexample :
    (1 ≤ 5 ∧ 5 < 1 + 10) ∧ calc_scroll_top 1 10 5 3 ≠ 1 := by decide

/-- C3 (amended): under the extra hypothesis `visible_height < selection_max`
(content does not fit entirely), `calc_scroll_top` keeps `current_top`
unchanged whenever the selection already lies inside the visible window. -/
theorem c3_minimal_movement
    (current_top visible_height selection selection_max : Nat)
    (hmax : visible_height < selection_max)
    (h1 : current_top ≤ selection)
    (h2 : selection < current_top + visible_height) :
    calc_scroll_top current_top visible_height selection selection_max =
      current_top := by
  unfold calc_scroll_top
  split_ifs <;> omega

/-- C3 witness: the amended theorem applied at (1, 10, 5, 100). -/
theorem c3_witness : calc_scroll_top 1 10 5 100 = 1 :=
  c3_minimal_movement 1 10 5 100 (by decide) (by decide) (by decide)

/-- C6 counterexample: `move_area_to_visible 5 2 9` on top = 0, max_top = 20
moves `top` to 2, not 0: start 2 is strictly greater than top 0, so the
downward-scroll branch does fire. -/
theorem c6_counterexample :
    (VerticalScroll.move_area_to_visible ⟨0, 20⟩ 5 2 9).top = 2 ∧
    (2 : Nat) ≠ 0 := by decide

/-- C6 (amended): `move_area_to_visible 5 2 9` with top = 0, max_top = 20
advances `top` by min(start − top, end − (top + height)) = min(2, 4) = 2,
clamped to max_top, so `top` becomes 2. -/
theorem c6_area_scroll :
    (VerticalScroll.move_area_to_visible ⟨0, 20⟩ 5 2 9).top =
      min 20 (0 + min (2 - 0) (9 - (0 + 5))) ∧
    (VerticalScroll.move_area_to_visible ⟨0, 20⟩ 5 2 9).top = 2 := by decide

/-- C2 counterexample: two well-formed `update` calls (selection below
selection_max each time) leave top = 5 above max_top = 3, because `update`
does not re-clamp the retained top when the content shrinks. -/
theorem c2_counterexample :
    ((VerticalScroll.new.update 7 20 3).update 5 6 3).top = 5 ∧
    ((VerticalScroll.new.update 7 20 3).update 5 6 3).max_top = 3 ∧
    ¬ ((VerticalScroll.new.update 7 20 3).update 5 6 3).top ≤
        ((VerticalScroll.new.update 7 20 3).update 5 6 3).max_top := by decide

/-- C2 (amended): every sequence of `move_top` calls preserves
`0 ≤ top ≤ max_top`; `update` sets `max_top = max(0, selection_max −
visible_height)` — with both fields forced to 0 when the visible height is
0 — but does not re-clamp a retained `top` into the new bound. -/
theorem c2_move_top_invariant :
    (∀ (s : VerticalScroll) (ms : List ScrollType), s.top ≤ s.max_top →
      (s.apply_moves ms).top ≤ (s.apply_moves ms).max_top) ∧
    (∀ (s : VerticalScroll) (selection selection_max visual_height : Nat),
      0 < visual_height →
      (s.update selection selection_max visual_height).max_top =
        selection_max - visual_height) ∧
    (∀ (s : VerticalScroll) (selection selection_max : Nat),
      (s.update selection selection_max 0).top = 0 ∧
      (s.update selection selection_max 0).max_top = 0) := by
  refine ⟨?_, ?_, ?_⟩
  · intro s ms
    induction ms generalizing s with
    | nil => intro h; simpa [VerticalScroll.apply_moves] using h
    | cons m ms ih =>
        intro h
        simp only [VerticalScroll.apply_moves, List.foldl_cons] at *
        exact ih _ (s.move_top_le m h)
  · intro s selection selection_max visual_height hpos
    simp only [VerticalScroll.update]
    rw [if_neg (by omega)]
  · intro s selection selection_max
    simp [VerticalScroll.update, calc_scroll_top]

/-- C2 witness: the amended theorem applied to the initial state with a
concrete key sequence, and to a concrete update. -/
theorem c2_witness :
    ((VerticalScroll.new.apply_moves [ScrollType.down, ScrollType.toEnd]).top ≤
      (VerticalScroll.new.apply_moves [ScrollType.down, ScrollType.toEnd]).max_top) ∧
    (VerticalScroll.new.update 3 10 4).max_top = 10 - 4 :=
  ⟨c2_move_top_invariant.1 VerticalScroll.new _ (by decide),
   c2_move_top_invariant.2.1 VerticalScroll.new 3 10 4 (by decide)⟩

/-- State of `MsgPopup` (popups/mod.rs): title, message, visibility flag and
the owned `VerticalScroll`.  The `Theme` field carries no behaviour and is
omitted. -/
structure MsgPopup where
  title : String
  msg : String
  visible : Bool
  scroll : VerticalScroll

/-- `MsgPopup::hide`: only flips the flag. -/
def MsgPopup.hide (p : MsgPopup) : MsgPopup :=
  { p with visible := false }

/-- `MsgPopup::show`: only flips the flag. -/
def MsgPopup.showPopup (p : MsgPopup) : MsgPopup :=
  { p with visible := true }

/-- `MsgPopup::set_new_msg`: stores title and message, resets the owned
scroll (top to 0, max_top untouched), then shows the popup. -/
def MsgPopup.set_new_msg (p : MsgPopup) (msg title : String) : MsgPopup :=
  MsgPopup.showPopup { p with title := title, msg := msg, scroll := p.scroll.reset }

/-- Scrolling of a visible popup: `MsgPopup::event` feeds each popup_down /
popup_up key to `scroll.move_top`. -/
def MsgPopup.scroll_moves (p : MsgPopup) (ms : List ScrollType) : MsgPopup :=
  { p with scroll := p.scroll.apply_moves ms }

/-- C10: `set_new_msg` stores title and body, resets the owned scroll top to
0 and sets visible; `hide` flips only the flag; and after show, arbitrary
scrolling, hide and a second show the scroll offset is 0 again. -/
theorem c10_msg_popup_lifecycle :
    (∀ (p : MsgPopup) (m t : String),
      (p.set_new_msg m t).title = t ∧ (p.set_new_msg m t).msg = m ∧
      (p.set_new_msg m t).visible = true ∧ (p.set_new_msg m t).scroll.top = 0) ∧
    (∀ p : MsgPopup,
      p.hide.visible = false ∧ p.hide.title = p.title ∧ p.hide.msg = p.msg ∧
      p.hide.scroll = p.scroll) ∧
    (∀ (p : MsgPopup) (m1 t1 m2 t2 : String) (ms : List ScrollType),
      ((((p.set_new_msg m1 t1).scroll_moves ms).hide).set_new_msg m2 t2).scroll.top = 0 ∧
      ((((p.set_new_msg m1 t1).scroll_moves ms).hide).set_new_msg m2 t2).visible = true) := by
  refine ⟨fun p m t => ?_, fun p => ?_, fun p m1 t1 m2 t2 ms => ?_⟩ <;>
    simp [MsgPopup.set_new_msg, MsgPopup.showPopup, MsgPopup.hide,
      MsgPopup.scroll_moves, VerticalScroll.reset]

/-- `usize::wrapping_sub`, modulo 2^64 = 18446744073709551616. -/
def usizeWrappingSub (a b : Nat) : Nat :=
  (a + (18446744073709551616 - b % 18446744073709551616)) % 18446744073709551616

/-- Reduction of a `u16` value, modulo 2^16 = 65536 (the `as u16` cast and
release-mode `u16` overflow). -/
def u16Mod (n : Nat) : Nat :=
  n % 65536

/-- `u16::saturating_add`. -/
def u16SaturatingAdd (a b : Nat) : Nat :=
  min (a + b) 65535

/-- Checked subtraction: `none` models the arithmetic-underflow panic of an
unchecked Rust `-` in a debug build. -/
def checkedSub (a b : Nat) : Option Nat :=
  if b ≤ a then some (a - b) else none

/-- State of `Tui` (tui/rendering.rs) restricted to the fields the scroll and
selection logic reads or writes: the table selection (`TableState::selected`),
the item count, the scrollbar position and content length, and the details
pane offset and line count (both `u16`).  The theme, search area and error
message carry no scroll behaviour and are omitted. -/
structure Tui where
  process_table_number_of_items : Nat
  selected : Option Nat
  process_table_scroll_position : Nat
  process_table_scroll_content_length : Nat
  process_details_scroll_offset : Nat
  process_details_number_of_lines : Nat
deriving Repr, DecidableEq

/-- `Tui::new`: `TableState::default()` has no selection, the item count is
0, the details offset and line count are 0. -/
def Tui.new : Tui :=
  { process_table_number_of_items := 0
    selected := none
    process_table_scroll_position := 0
    process_table_scroll_content_length := 0
    process_details_scroll_offset := 0
    process_details_number_of_lines := 0 }

/-- `Tui::reset_process_detals_scroll` (sic). -/
def Tui.reset_process_detals_scroll (t : Tui) : Tui :=
  { t with process_details_scroll_offset := 0 }

/-- `Tui::select_next_row`: adds the step to the selected index, wrapping
once to 0 when the sum reaches the item count, then moves the scrollbar and
resets the details scroll. -/
def Tui.select_next_row (t : Tui) (step_size : Nat) : Tui :=
  let next_row_index := t.selected.map (fun i =>
    let i := i + step_size
    if i ≥ t.process_table_number_of_items then 0 else i)
  Tui.reset_process_detals_scroll
    { t with selected := next_row_index,
             process_table_scroll_position := next_row_index.getD 0 }

/-- `Tui::select_previous_row`: `wrapping_sub` of the step, then
`clamp(0, number_of_items.saturating_sub(1))` (which on `Nat` is `min` with
the saturated bound), then scrollbar move and details-scroll reset. -/
def Tui.select_previous_row (t : Tui) (step_size : Nat) : Tui :=
  let previous_index := t.selected.map (fun i =>
    let i := usizeWrappingSub i step_size
    min i (t.process_table_number_of_items - 1))
  Tui.reset_process_detals_scroll
    { t with selected := previous_index,
             process_table_scroll_position := previous_index.getD 0 }

/-- `Tui::update_process_table_number_of_items`: stores the count, sets the
scrollbar content length to `count.saturating_sub(1)`, and selects `None`
for an empty list, index 0 otherwise. -/
def Tui.update_process_table_number_of_items (t : Tui) (number_of_items : Nat) :
    Tui :=
  { t with process_table_number_of_items := number_of_items,
           process_table_scroll_content_length := number_of_items - 1,
           selected := if number_of_items = 0 then none else some 0 }

/-- `Tui::process_details_up`. -/
def Tui.process_details_up (t : Tui) : Tui :=
  { t with process_details_scroll_offset := t.process_details_scroll_offset - 1 }

/-- `Tui::process_details_down`, parameterized by the height of the details
area rect.  The two plain `u16` subtractions (`height - 2` and
`number_of_lines - scroll_offset`) are modeled as checked subtraction:
`none` is the underflow panic of a debug build. -/
def Tui.process_details_down (t : Tui) (area_height : Nat) : Option Tui := do
  let area_content_height ← checkedSub area_height 2
  let content_scrolled ←
    checkedSub t.process_details_number_of_lines t.process_details_scroll_offset
  if content_scrolled > area_content_height then
    pure { t with process_details_scroll_offset :=
                    u16SaturatingAdd t.process_details_scroll_offset 1 }
  else
    pure t

/-- `Tui::update_process_details_number_of_lines`, parameterized by the
details area width and by the selected process's `args` character count
(`none` when no process is selected).  `content_width = area.width - 2`; the
`as u16` cast and the `u16` additions are taken modulo 2^16. -/
def Tui.update_process_details_number_of_lines (t : Tui) (area_width : Nat)
    (selected_args_chars : Option Nat) : Tui :=
  let content_width := area_width - 2
  match selected_args_chars with
  | some args_chars =>
      let args_number_of_lines := u16Mod (u16Mod args_chars / content_width + 1)
      { t with process_details_number_of_lines :=
                 u16Mod (args_number_of_lines + 2) }
  | none => { t with process_details_number_of_lines := 1 }

/-- C4 counterexample: on a 5-element list at index 1, `select_previous_row`
with step 4 lands on index 4 — the end of the list — not on index 0:
`wrapping_sub` underflows to 2^64 − 3 and the clamp then saturates at
count − 1. -/
theorem c4_counterexample :
    (((Tui.new.update_process_table_number_of_items 5).select_next_row
        1).select_previous_row 4).selected = some 4 ∧
    some 4 ≠ some 0 := by decide

/-- C4 (amended): `select_previous_row` computes the new index with wrapping
(mod 2^64) subtraction and clamps it into [0, count − 1], so without
underflow it yields `i - step`, and on underflow it wraps to the last index
`count - 1` rather than stopping at 0; it also resets the details scroll
offset. -/
theorem c4_select_previous_wrapping
    (t : Tui) (step i : Nat)
    (hsel : t.selected = some i)
    (hlt : i < t.process_table_number_of_items)
    (hbound : t.process_table_number_of_items + step ≤ 18446744073709551616) :
    (t.select_previous_row step).selected =
      some (if step ≤ i then i - step
            else t.process_table_number_of_items - 1) ∧
    (t.select_previous_row step).process_details_scroll_offset = 0 := by
  constructor
  · simp only [Tui.select_previous_row, Tui.reset_process_detals_scroll, hsel,
      Option.map_some', Option.some.injEq]
    unfold usizeWrappingSub
    split_ifs <;> omega
  · rfl

/-- C4 witness: the amended theorem applied on a 5-element list at index 1
with step 4. -/
theorem c4_witness :
    (((Tui.new.update_process_table_number_of_items 5).select_next_row
        1).select_previous_row 4).selected = some 4 ∧
    (((Tui.new.update_process_table_number_of_items 5).select_next_row
        1).select_previous_row 4).process_details_scroll_offset = 0 := by
  have h := c4_select_previous_wrapping
    ((Tui.new.update_process_table_number_of_items 5).select_next_row 1) 4 1
    (by decide) (by decide) (by decide)
  exact ⟨h.1.trans (by decide), h.2⟩

/-- C5: on a non-empty list with selection at index i, `select_next_row`
selects 0 when `i + step` reaches the item count and `i + step` otherwise,
and resets the details scroll offset; on a 5-element list at index 3 with
step 4 it selects index 0. -/
theorem c5_select_next
    (t : Tui) (step i : Nat)
    (hsel : t.selected = some i)
    (_hpos : 0 < t.process_table_number_of_items) :
    ((t.select_next_row step).selected =
      some (if i + step ≥ t.process_table_number_of_items then 0
            else i + step)) ∧
    (t.select_next_row step).process_details_scroll_offset = 0 ∧
    (((Tui.new.update_process_table_number_of_items 5).select_next_row
        3).select_next_row 4).selected = some 0 := by
  refine ⟨?_, rfl, by decide⟩
  simp only [Tui.select_next_row, Tui.reset_process_detals_scroll, hsel,
    Option.map_some']

/-- C5 witness: the theorem applied on a 5-element list at index 3 with
step 4. -/
theorem c5_witness :
    (((Tui.new.update_process_table_number_of_items 5).select_next_row
        3).select_next_row 4).selected = some 0 ∧
    (((Tui.new.update_process_table_number_of_items 5).select_next_row
        3).select_next_row 4).process_details_scroll_offset = 0 := by
  have h := c5_select_next
    ((Tui.new.update_process_table_number_of_items 5).select_next_row 3) 4 3
    (by decide) (by decide)
  exact ⟨h.1.trans (by decide), h.2.1⟩

/-- The three operations that touch the table selection cursor. -/
inductive TuiOp where
  | replaceList (n : Nat)
  | selectNext (step : Nat)
  | selectPrev (step : Nat)
deriving Repr, DecidableEq

/-- Dispatch of a cursor operation on the `Tui` state. -/
def Tui.apply_op (t : Tui) : TuiOp → Tui
  | TuiOp.replaceList n => t.update_process_table_number_of_items n
  | TuiOp.selectNext step => t.select_next_row step
  | TuiOp.selectPrev step => t.select_previous_row step

/-- The selection-cursor invariant: on an empty list the selection is
`none`, and on a non-empty list the selection is some index strictly below
the item count (so `none` holds exactly when the list is empty). -/
def SelInv (t : Tui) : Prop :=
  (t.process_table_number_of_items = 0 → t.selected = none) ∧
  (t.process_table_number_of_items ≠ 0 →
    ∃ i, t.selected = some i ∧ i < t.process_table_number_of_items)

/-- Each single cursor operation preserves the selection invariant. -/
theorem sel_inv_apply_op (t : Tui) (op : TuiOp) (h : SelInv t) :
    SelInv (t.apply_op op) := by
  obtain ⟨h0, hex⟩ := h
  cases op with
  | replaceList n =>
      refine ⟨fun hn => ?_, fun hn => ?_⟩
      · simp only [Tui.apply_op, Tui.update_process_table_number_of_items] at hn ⊢
        simp [hn]
      · simp only [Tui.apply_op, Tui.update_process_table_number_of_items] at hn ⊢
        exact ⟨0, by rw [if_neg hn], by omega⟩
  | selectNext step =>
      by_cases hN : t.process_table_number_of_items = 0
      · have hsel := h0 hN
        refine ⟨fun _ => ?_, fun hn => ?_⟩
        · simp [Tui.apply_op, Tui.select_next_row,
            Tui.reset_process_detals_scroll, hsel]
        · simp only [Tui.apply_op, Tui.select_next_row,
            Tui.reset_process_detals_scroll] at hn
          exact absurd hN hn
      · obtain ⟨j, hj, hjlt⟩ := hex hN
        refine ⟨fun hn => ?_, fun _ => ?_⟩
        · simp only [Tui.apply_op, Tui.select_next_row,
            Tui.reset_process_detals_scroll] at hn
          exact absurd hn hN
        · simp only [Tui.apply_op, Tui.select_next_row,
            Tui.reset_process_detals_scroll, hj, Option.map_some']
          exact ⟨_, rfl, by split <;> omega⟩
  | selectPrev step =>
      by_cases hN : t.process_table_number_of_items = 0
      · have hsel := h0 hN
        refine ⟨fun _ => ?_, fun hn => ?_⟩
        · simp [Tui.apply_op, Tui.select_previous_row,
            Tui.reset_process_detals_scroll, hsel]
        · simp only [Tui.apply_op, Tui.select_previous_row,
            Tui.reset_process_detals_scroll] at hn
          exact absurd hN hn
      · obtain ⟨j, hj, hjlt⟩ := hex hN
        refine ⟨fun hn => ?_, fun _ => ?_⟩
        · simp only [Tui.apply_op, Tui.select_previous_row,
            Tui.reset_process_detals_scroll] at hn
          exact absurd hn hN
        · simp only [Tui.apply_op, Tui.select_previous_row,
            Tui.reset_process_detals_scroll, hj, Option.map_some']
          exact ⟨_, rfl, by omega⟩

/-- C7: the selection-cursor invariant (the selection is `none` exactly on
an empty list, and some index in [0, count) otherwise) holds after every
sequence of cursor operations starting from an invariant state, and holds
of the initial state; replacing the list with an empty one always
deselects, replacing it with a non-empty one selects index 0, and on a
deselected cursor both select operations keep it deselected (and the count
unchanged). -/
theorem c7_selection_invariant :
    (∀ (t : Tui) (ops : List TuiOp), SelInv t →
      SelInv (ops.foldl Tui.apply_op t)) ∧
    SelInv Tui.new ∧
    (∀ t : Tui, (t.apply_op (TuiOp.replaceList 0)).selected = none) ∧
    (∀ (t : Tui) (n : Nat), 0 < n →
      (t.apply_op (TuiOp.replaceList n)).selected = some 0) ∧
    (∀ (t : Tui) (step : Nat), t.selected = none →
      ((t.apply_op (TuiOp.selectNext step)).selected = none ∧
       (t.apply_op (TuiOp.selectPrev step)).selected = none ∧
       (t.apply_op (TuiOp.selectNext step)).process_table_number_of_items =
         t.process_table_number_of_items ∧
       (t.apply_op (TuiOp.selectPrev step)).process_table_number_of_items =
         t.process_table_number_of_items)) := by
  refine ⟨?_, ⟨fun _ => rfl, fun h => absurd rfl h⟩, ?_, ?_, ?_⟩
  · intro t ops
    induction ops generalizing t with
    | nil => exact fun h => h
    | cons op ops ih =>
        intro h
        simpa only [List.foldl_cons] using ih _ (sel_inv_apply_op t op h)
  · intro t
    simp [Tui.apply_op, Tui.update_process_table_number_of_items]
  · intro t n hn
    simp only [Tui.apply_op, Tui.update_process_table_number_of_items]
    rw [if_neg (by omega)]
  · intro t step hsel
    refine ⟨?_, ?_, rfl, rfl⟩ <;>
      simp [Tui.apply_op, Tui.select_next_row, Tui.select_previous_row,
        Tui.reset_process_detals_scroll, hsel]

/-- C7 witness: the theorem applied to the initial state, a concrete
operation sequence, and concrete list replacements. -/
theorem c7_witness :
    SelInv ([TuiOp.replaceList 3, TuiOp.selectNext 2,
      TuiOp.selectPrev 1].foldl Tui.apply_op Tui.new) ∧
    (Tui.new.apply_op (TuiOp.replaceList 0)).selected = none ∧
    (Tui.new.apply_op (TuiOp.replaceList 3)).selected = some 0 ∧
    (Tui.new.apply_op (TuiOp.selectNext 7)).selected = none :=
  ⟨c7_selection_invariant.1 Tui.new _ c7_selection_invariant.2.1,
   c7_selection_invariant.2.2.1 Tui.new,
   c7_selection_invariant.2.2.2.1 Tui.new 3 (by decide),
   (c7_selection_invariant.2.2.2.2 Tui.new 7 rfl).1⟩

/-- C8 counterexample: with content width 5 (area width 7) and an args text
of exactly 10 characters, the recomputed line count is 10 / 5 + 1 + 2 = 5,
while ceil(10 / 5) + 2 = 4: the code adds one line even when the width
divides the character count exactly. -/
theorem c8_counterexample :
    (Tui.new.update_process_details_number_of_lines 7
        (some 10)).process_details_number_of_lines = 5 ∧
    (10 + 5 - 1) / 5 + 2 = 4 ∧
    (Tui.new.update_process_details_number_of_lines 7
        (some 10)).process_details_number_of_lines ≠ (10 + 5 - 1) / 5 + 2 := by
  decide

/-- C8 (amended): for a selected entity whose args text has fewer than 2^16
characters and a positive content width (area width = content width + 2)
with no `u16` overflow in the result, the recomputed line count is
`character_count / content_width + 3` — floor division plus one ARGS line
plus the two fixed header lines, which equals ceil + 2 exactly when the
width does not divide the count — and it is 1 when no entity is selected. -/
theorem c8_details_line_count :
    (∀ (t : Tui) (content_width args_chars : Nat),
      0 < content_width → args_chars < 65536 →
      args_chars / content_width + 3 < 65536 →
      (t.update_process_details_number_of_lines (content_width + 2)
          (some args_chars)).process_details_number_of_lines =
        args_chars / content_width + 3) ∧
    (∀ (t : Tui) (area_width : Nat),
      (t.update_process_details_number_of_lines area_width
          none).process_details_number_of_lines = 1) := by
  constructor
  · intro t content_width args_chars hw hargs hsmall
    simp only [Tui.update_process_details_number_of_lines, u16Mod,
      Nat.add_sub_cancel]
    rw [Nat.mod_eq_of_lt hargs]
    generalize args_chars / content_width = q at hsmall ⊢
    omega
  · intro t area_width
    rfl

/-- C8 witness: the amended theorem applied at 10 characters and content
width 5, and at an empty selection. -/
theorem c8_witness :
    (Tui.new.update_process_details_number_of_lines (5 + 2)
        (some 10)).process_details_number_of_lines = 10 / 5 + 3 ∧
    (Tui.new.update_process_details_number_of_lines 7
        none).process_details_number_of_lines = 1 :=
  ⟨c8_details_line_count.1 Tui.new 5 10 (by decide) (by decide) (by decide),
   c8_details_line_count.2 Tui.new 7⟩

/-- C9: `process_details_down` is not total.  With line count 0 and scroll
offset 1 (an offset exceeding the recomputed line count) the subtraction
`number_of_lines - scroll_offset` underflows, and with an area height of 1
(below the 2-line border) `height - 2` underflows; both are the
arithmetic-underflow panic of a debug build (`none` in the model), while a
release build would wrap around instead of clamping. -/
theorem c9_details_down_underflow :
    Tui.process_details_down
      { Tui.new with process_details_number_of_lines := 0,
                     process_details_scroll_offset := 1 } 7 = none ∧
    Tui.process_details_down Tui.new 1 = none := by decide
